import Mathlib

/- Shallow embedding of the AI-Orbit Intelligence 3D front-end
   (app/static/app.js, Sprint 9 revision): the tracked-object data
   model, the periodic refresh protocol (fetchData), the simplified
   orbital ground-track simulator (animateOrbits), the play/pause
   state machine and the render-layer derivations.

   JavaScript numbers are modelled as real numbers; the DOM and the
   rendering engine are modelled by the fields of AppState that the
   code writes to them (pointsLayer, pathsLayer, ringsData, panel,
   statusText).  Field and function names follow the source. -/

namespace OrbitIntel

/-- Constant ORBIT_SPEED_FACTOR = 10 of the source (Sprint 9
acceleration factor so motion is visible). -/
def ORBIT_SPEED_FACTOR : ℝ := 10

/-- One tracked object, exactly the record built per satellite by
fetchData (lat, lng, altitude, is_anomaly, orbit_type, anomaly_score,
name, norad_id, alt, owner, object_type, mean_motion, inclination)
plus the transient animation field simPhase, standing for the
optional property named with a leading underscore in the source
(absent = undefined). -/
structure Sat where
  lat : ℝ
  lng : ℝ
  altitude : ℝ
  is_anomaly : Bool
  orbit_type : String
  anomaly_score : ℝ
  name : String
  norad_id : ℤ
  alt : ℝ
  owner : String
  object_type : String
  mean_motion : ℝ
  inclination : ℝ
  simPhase : Option ℝ

/-- One entry of the rings layer, as built in fetchData. -/
structure RingEntry where
  lat : ℝ
  lng : ℝ
  altitude : ℝ

/-- One entry of the paths (vectors) layer, as built by
buildPathsData. -/
structure PathEntry where
  coords : List (ℝ × ℝ × ℝ)
  norad_id : ℤ
  is_anomaly : Bool

/-- The user-visible status line: initial text, the live message
written on refresh success, or the connection-lost message written on
refresh failure. -/
inductive Status where
  | initial
  | live
  | connectionLost
deriving DecidableEq

/-- One satellite of the positions-feed response.  Optional source
fields (owner, object_type, mean_motion, inclination) are Option
valued; fetchData defaults them with the JavaScript or-operator. -/
structure ApiSat where
  lat : ℝ
  lon : ℝ
  alt : ℝ
  is_anomaly : Bool
  orbit_type : String
  anomaly_score : ℝ
  name : String
  norad_id : ℤ
  owner : Option String
  object_type : Option String
  mean_motion : Option ℝ
  inclination : Option ℝ

/-- The positions-feed response body: total_satellites and the
satellite list. -/
structure ApiData where
  total_satellites : ℤ
  satellites : List ApiSat

/-- The mutable globals of the script together with the data the
script last pushed to its collaborators: currentData, isPlaying,
lastFrameTime, selectedSatelliteId, showVectors, the three render
layers of the globe, the anomalies side panel and the status text. -/
structure AppState where
  currentData : List Sat
  isPlaying : Bool
  lastFrameTime : Option ℝ
  selectedSatelliteId : Option ℤ
  showVectors : Bool
  pointsLayer : List Sat
  pathsLayer : List PathEntry
  ringsData : List RingEntry
  panel : List Sat
  statusText : Status

/-- JavaScript `x || d` on a possibly absent string: an absent or
empty string falls back to the default. -/
def jsOrStr (x : Option String) (d : String) : String :=
  match x with
  | none => d
  | some s => if s = "" then d else s

/-- JavaScript `x || d` on a possibly absent number: an absent or
zero value falls back to the default. -/
noncomputable def jsOrNum (x : Option ℝ) (d : ℝ) : ℝ :=
  match x with
  | none => d
  | some v => if v = 0 then d else v

/-- visualAltitude: logarithmic compression log10(altKm + 1) / 5. -/
noncomputable def visualAltitude (altKm : ℝ) : ℝ :=
  Real.logb 10 (altKm + 1) / 5

/-- buildPathsData: empty when vectors are hidden, otherwise one
two-point vertical path per object. -/
noncomputable def buildPathsData (showVectors : Bool) (points : List Sat) : List PathEntry :=
  if !showVectors then []
  else points.map (fun d =>
    { coords := [(d.lat, d.lng, 0), (d.lat, d.lng, visualAltitude d.altitude)],
      norad_id := d.norad_id,
      is_anomaly := d.is_anomaly })

/-- The per-satellite mapping of fetchData from an API record to a
point record.  simPhase is absent on every freshly mapped object
(the source also deletes the transient field right after the map,
which is a no-op on these records). -/
noncomputable def mapPoint (s : ApiSat) : Sat :=
  { lat := s.lat
    lng := s.lon
    altitude := s.alt
    is_anomaly := s.is_anomaly
    orbit_type := s.orbit_type
    anomaly_score := s.anomaly_score
    name := s.name
    norad_id := s.norad_id
    alt := s.alt
    owner := jsOrStr s.owner "UNKNOWN"
    object_type := jsOrStr s.object_type "UNKNOWN"
    mean_motion := jsOrNum s.mean_motion 0
    inclination := jsOrNum s.inclination 0
    simPhase := none }

/-- The ordering used by the anomalies panel comparator
(b.anomaly_score - a.anomaly_score): descending anomaly score. -/
def panelRel (a b : Sat) : Prop :=
  b.anomaly_score ≤ a.anomaly_score

noncomputable instance : DecidableRel panelRel :=
  fun a b => inferInstanceAs (Decidable (b.anomaly_score ≤ a.anomaly_score))

instance : IsTotal Sat panelRel :=
  ⟨fun a b => le_total b.anomaly_score a.anomaly_score⟩

instance : IsTrans Sat panelRel :=
  ⟨fun _ _ _ h1 h2 => le_trans h2 h1⟩

/-- buildAnomaliesPanel data: the input sorted by descending
anomaly_score with a stable sort (Array.prototype.sort is stable per
the ECMAScript standard; modelled by the stable insertion sort), then
truncated to the top 50. -/
noncomputable def panelTop (anomalies : List Sat) : List Sat :=
  (anomalies.insertionSort panelRel).take 50

/-- Ground-track longitude increment of one tick:
degPerSec = ((mm - 1) * 360) / 86400, applied as
degPerSec * deltaSec * ORBIT_SPEED_FACTOR. -/
noncomputable def lngStep (deltaSec mm : ℝ) : ℝ :=
  (((mm - 1) * 360) / 86400) * deltaSec * ORBIT_SPEED_FACTOR

/-- The longitude wrap of animateOrbits: subtract 360 when above 180,
then add 360 when below -180 (each a single conditional step). -/
noncomputable def wrapLng (x : ℝ) : ℝ :=
  let y := if x > 180 then x - 360 else x
  if y < -180 then y + 360 else y

/-- Phase initialisation when the transient phase is absent:
asin of the latitude / inclination ratio clamped to [-1, 1] when the
inclination is positive, else 0. -/
noncomputable def initPhase (lat incl : ℝ) : ℝ :=
  if incl > 0 then Real.arcsin (max (-1) (min 1 (lat / incl))) else 0

/-- Phase increment of one tick: orbAngVel = (mm * 2 * pi) / 86400,
applied as orbAngVel * deltaSec * ORBIT_SPEED_FACTOR. -/
noncomputable def phaseStep (deltaSec mm : ℝ) : ℝ :=
  ((mm * 2 * Real.pi) / 86400) * deltaSec * ORBIT_SPEED_FACTOR

/-- The phase bound of animateOrbits: a single conditional
subtraction of 2 * pi when the phase exceeds 2 * pi. -/
noncomputable def wrapPhase (p : ℝ) : ℝ :=
  if p > 2 * Real.pi then p - 2 * Real.pi else p

/-- The latitude clamp of animateOrbits: to 90 when above, then to
-90 when below. -/
noncomputable def clampLat (x : ℝ) : ℝ :=
  let y := if x > 90 then (90 : ℝ) else x
  if y < -90 then (-90 : ℝ) else y

/-- The per-object body of the animateOrbits loop: with
mm = mean_motion || 0 and incl = inclination || 0, an object with
mm = 0 is skipped; otherwise its longitude drifts and wraps, its
transient phase is initialised if absent and advanced and bounded,
and its latitude is recomputed as incl * sin(phase) and clamped. -/
noncomputable def updateSat (deltaSec : ℝ) (d : Sat) : Sat :=
  let mm := if d.mean_motion = 0 then (0 : ℝ) else d.mean_motion
  let incl := if d.inclination = 0 then (0 : ℝ) else d.inclination
  if mm = 0 then d
  else
    let p2 := wrapPhase (d.simPhase.getD (initPhase d.lat incl) + phaseStep deltaSec mm)
    { d with
      lng := wrapLng (d.lng + lngStep deltaSec mm),
      simPhase := some p2,
      lat := clampLat (incl * Real.sin p2) }

/-- The new phase an object with nonzero mean motion gets on a tick:
previous transient phase (or its initialisation) advanced by the
phase increment, then bounded. -/
noncomputable def tickPhase (deltaSec : ℝ) (d : Sat) : ℝ :=
  wrapPhase (d.simPhase.getD (initPhase d.lat d.inclination) + phaseStep deltaSec d.mean_motion)

/-- Elapsed seconds used by a tick: (timestamp - lastFrameTime) /
1000, with a missing lastFrameTime first set to the timestamp
(elapsed 0), and the nominal 0.016 substituted when the elapsed
exceeds 0.5. -/
noncomputable def deltaSecOf (lastFrameTime : Option ℝ) (timestamp : ℝ) : ℝ :=
  let last := lastFrameTime.getD timestamp
  let d0 := (timestamp - last) / 1000
  if d0 > 0.5 then 0.016 else d0

/-- One call of the animateOrbits callback: returns immediately when
not playing; otherwise updates every object, records the timestamp,
pushes the points layer, and rebuilds the vectors layer only when
vectors are shown.  The rings layer is not touched. -/
noncomputable def animateOrbits (timestamp : ℝ) (st : AppState) : AppState :=
  if st.isPlaying = false then st
  else
    let deltaSec := deltaSecOf st.lastFrameTime timestamp
    let updated := st.currentData.map (updateSat deltaSec)
    { st with
      currentData := updated,
      lastFrameTime := some timestamp,
      pointsLayer := updated,
      pathsLayer := if st.showVectors then buildPathsData st.showVectors updated
                    else st.pathsLayer }

/-- One click of the play/pause button.  The flag is toggled first;
a start attempt with 3000 or more objects raises the capacity alert
(the returned Bool) and resets the flag; a successful start records
performance.now(); a pause clears the frame time. -/
def clickPlay (now : ℝ) (st : AppState) : AppState × Bool :=
  let playing := !st.isPlaying
  if playing then
    if 3000 ≤ st.currentData.length then
      ({ st with isPlaying := false }, true)
    else
      ({ st with isPlaying := true, lastFrameTime := some now }, false)
  else
    ({ st with isPlaying := false, lastFrameTime := none }, false)

/-- handleSatelliteClick: set the selection to the clicked id and
repaint points and vectors from the current collection (the camera
focus and the enrichment lookup touch only external collaborators). -/
noncomputable def handleSatelliteClick (d : Sat) (st : AppState) : AppState :=
  { st with
    selectedSatelliteId := some d.norad_id,
    pointsLayer := st.currentData,
    pathsLayer := buildPathsData st.showVectors st.currentData }

/-- The wiki-modal close handler: clear the selection and repaint. -/
noncomputable def wikiClose (st : AppState) : AppState :=
  { st with
    selectedSatelliteId := none,
    pointsLayer := st.currentData,
    pathsLayer := buildPathsData st.showVectors st.currentData }

/-- The toggle-vectors handler: flip the flag and rebuild the vectors
layer. -/
noncomputable def toggleVectors (st : AppState) : AppState :=
  let sv := !st.showVectors
  { st with
    showVectors := sv,
    pathsLayer := buildPathsData sv st.currentData }

/-- What fetchData observes from the network: the fetch rejecting, or
a response with its ok flag and parsed body. -/
inductive FetchOutcome where
  | netError
  | response (ok : Bool) (data : ApiData)

/-- The successful tail of fetchData: map the satellites, derive the
rings from the anomalous ones, replace the collection, push all three
layers and the panel, set the live status, and stop the animation
when the new collection has 3000 or more objects. -/
noncomputable def applyData (st : AppState) (data : ApiData) : AppState :=
  let anomalies := data.satellites.filter (fun s => s.is_anomaly)
  let points := data.satellites.map mapPoint
  let rings := anomalies.map (fun s => RingEntry.mk s.lat s.lon s.alt)
  let st1 : AppState :=
    { st with
      statusText := Status.live,
      currentData := points,
      pointsLayer := points,
      ringsData := rings,
      pathsLayer := buildPathsData st.showVectors points,
      panel := panelTop (points.filter (fun p => p.is_anomaly)) }
  if st1.isPlaying ∧ 3000 ≤ st1.currentData.length then
    { st1 with isPlaying := false, lastFrameTime := none }
  else st1

/-- The try block of fetchData: a network error or a non-ok response
throws before any state is mutated; an ok response runs the
successful tail. -/
noncomputable def fetchBody (st : AppState) : FetchOutcome → Except Unit AppState
  | FetchOutcome.netError => Except.error ()
  | FetchOutcome.response ok data =>
      if ok then Except.ok (applyData st data) else Except.error ()

/-- fetchData: the try block with its catch, which swallows the
exception and writes the connection-lost status, leaving everything
else as it was. -/
noncomputable def fetchData (st : AppState) (o : FetchOutcome) : AppState :=
  match fetchBody st o with
  | Except.error _ => { st with statusText := Status.connectionLost }
  | Except.ok st1 => st1

/-- The state at script start: empty collection, stopped simulator,
no selection, vectors shown, empty layers. -/
def initState : AppState :=
  { currentData := []
    isPlaying := false
    lastFrameTime := none
    selectedSatelliteId := none
    showVectors := true
    pointsLayer := []
    pathsLayer := []
    ringsData := []
    panel := []
    statusText := Status.initial }

/-- The event-driven transitions of the script: a refresh landing
(timer, startup or filter change), a play/pause click, an animation
tick, a satellite click (from the globe or the side panel, whose
stale DOM data makes the clicked record arbitrary), the wiki-modal
close, and the vectors toggle. -/
inductive Step : AppState → AppState → Prop where
  | fetch (st : AppState) (o : FetchOutcome) : Step st (fetchData st o)
  | play (st : AppState) (now : ℝ) : Step st (clickPlay now st).1
  | tick (st : AppState) (ts : ℝ) : Step st (animateOrbits ts st)
  | click (st : AppState) (d : Sat) : Step st (handleSatelliteClick d st)
  | closeWiki (st : AppState) : Step st (wikiClose st)
  | toggle (st : AppState) : Step st (toggleVectors st)

/-- States reachable from the initial state by the event
transitions. -/
inductive Reachable : AppState → Prop where
  | init : Reachable initState
  | step {s t : AppState} : Reachable s → Step s t → Reachable t

/-- A benign concrete object for witnesses: zero mean motion, all
coordinates in domain. -/
def satZero : Sat :=
  { lat := 0, lng := 0, altitude := 400, is_anomaly := false,
    orbit_type := "LEO", anomaly_score := 0, name := "W", norad_id := 1,
    alt := 400, owner := "UNKNOWN", object_type := "UNKNOWN",
    mean_motion := 0, inclination := 0, simPhase := none }

/-- Concrete object refuting the longitude invariant: with
mean_motion 13/25 a tick of half a second moves the longitude by
exactly -1/100 degree, taking -179.99 to -180, which neither wrap
branch moves. -/
noncomputable def satCexLng : Sat :=
  { lat := 0, lng := -17999/100, altitude := 500, is_anomaly := false,
    orbit_type := "LEO", anomaly_score := 0, name := "CEX1", norad_id := 11,
    alt := 500, owner := "UNKNOWN", object_type := "UNKNOWN",
    mean_motion := 13/25, inclination := 0, simPhase := none }

/-- Concrete object refuting the phase-range part of the phase claim:
latitude -90 with inclination 90 initialises the phase to
asin(-1) = -pi/2, and a small tick leaves it negative. -/
def satCexPhase : Sat :=
  { lat := -90, lng := 0, altitude := 400, is_anomaly := false,
    orbit_type := "LEO", anomaly_score := 0, name := "CEX2", norad_id := 12,
    alt := 400, owner := "UNKNOWN", object_type := "UNKNOWN",
    mean_motion := 1, inclination := 90, simPhase := none }

/-- Concrete object with a nonzero mean motion and a recorded phase,
for the phase-advance witness. -/
def satPhaseW : Sat :=
  { lat := 0, lng := 0, altitude := 400, is_anomaly := false,
    orbit_type := "LEO", anomaly_score := 0, name := "WP", norad_id := 13,
    alt := 400, owner := "UNKNOWN", object_type := "UNKNOWN",
    mean_motion := 1, inclination := 0, simPhase := none }

/-- A concrete feed satellite with id 5 and no optional fields. -/
def apiSatA : ApiSat :=
  { lat := 0, lon := 0, alt := 400, is_anomaly := false,
    orbit_type := "LEO", anomaly_score := 0, name := "A", norad_id := 5,
    owner := none, object_type := none,
    mean_motion := none, inclination := none }

/-- A feed response carrying exactly the satellite with id 5. -/
def dataA : ApiData := { total_satellites := 1, satellites := [apiSatA] }

/-- A feed response carrying no satellites. -/
def dataEmpty : ApiData := { total_satellites := 0, satellites := [] }

/-- State after the first refresh loads dataA. -/
noncomputable def st1 : AppState :=
  fetchData initState (FetchOutcome.response true dataA)

/-- State after the user then clicks the satellite with id 5. -/
noncomputable def st2 : AppState :=
  handleSatelliteClick (mapPoint apiSatA) st1

/-- State after a later refresh replaces the collection with the
empty one, with the selection left untouched. -/
noncomputable def st3 : AppState :=
  fetchData st2 (FetchOutcome.response true dataEmpty)

/-- A state holding exactly one object, for selection witnesses. -/
def stOne : AppState := { initState with currentData := [satZero] }

/-- A state holding 3000 objects, at the capacity ceiling. -/
def stBig : AppState := { initState with currentData := List.replicate 3000 satZero }

/-- Claim C1 as stated: a tick keeps an in-domain latitude in
[-90, 90] and an in-domain longitude in (-180, 180], for every
object and every non-negative elapsed time. -/
def LngLatInvClaim : Prop :=
  ∀ (deltaSec : ℝ) (d : Sat), 0 ≤ deltaSec →
    -90 ≤ d.lat → d.lat ≤ 90 → -180 < d.lng → d.lng ≤ 180 →
    (-90 ≤ (updateSat deltaSec d).lat ∧ (updateSat deltaSec d).lat ≤ 90 ∧
     -180 < (updateSat deltaSec d).lng ∧ (updateSat deltaSec d).lng ≤ 180)

/-- The range part of claim C4 as stated: after a tick, the phase of
every object with positive mean motion lies in [0, 2 pi). -/
def PhaseRangeClaim : Prop :=
  ∀ (deltaSec : ℝ) (d : Sat), 0 ≤ deltaSec → 0 < d.mean_motion →
    ∀ p, (updateSat deltaSec d).simPhase = some p →
      (0 ≤ p ∧ p < 2 * Real.pi)

/-- Claim C3 as stated: at every reachable state a non-none selection
references an id of the current collection. -/
def SelectionValidClaim : Prop :=
  ∀ st, Reachable st → ∀ i, st.selectedSatelliteId = some i →
    i ∈ st.currentData.map (fun s => s.norad_id)

/-- The first-tick part of claim C5 as stated: on the first tick
after a successful start, the nominal 0.016 is used as the elapsed
time. -/
def FirstTickNominalClaim : Prop :=
  ∀ (st : AppState) (now ts : ℝ), st.isPlaying = false →
    (clickPlay now st).1.isPlaying = true →
    deltaSecOf (clickPlay now st).1.lastFrameTime ts = 0.016

/-- The JavaScript number default `x || 0` is the identity on a
number that is already present. -/
theorem jsNumSelf (x : ℝ) : (if x = 0 then (0 : ℝ) else x) = x := by
  split_ifs with h
  · exact h.symm
  · rfl

/-- An object with zero mean motion is skipped by the animation
loop. -/
theorem updateSat_of_zero {d : Sat} (deltaSec : ℝ) (h : d.mean_motion = 0) :
    updateSat deltaSec d = d := by
  simp only [updateSat, jsNumSelf]
  rw [if_pos h]

/-- Characterisation of the animation step on an object with nonzero
mean motion. -/
theorem updateSat_of_ne {d : Sat} (deltaSec : ℝ) (h : d.mean_motion ≠ 0) :
    updateSat deltaSec d =
      { d with
        lng := wrapLng (d.lng + lngStep deltaSec d.mean_motion),
        simPhase := some (tickPhase deltaSec d),
        lat := clampLat (d.inclination * Real.sin (tickPhase deltaSec d)) } := by
  simp only [updateSat, jsNumSelf, tickPhase]
  rw [if_neg h]

/-- The longitude after a step on an object with nonzero mean
motion. -/
theorem updateSat_lng {d : Sat} (deltaSec : ℝ) (h : d.mean_motion ≠ 0) :
    (updateSat deltaSec d).lng = wrapLng (d.lng + lngStep deltaSec d.mean_motion) := by
  rw [updateSat_of_ne deltaSec h]

/-- The transient phase after a step on an object with nonzero mean
motion. -/
theorem updateSat_simPhase {d : Sat} (deltaSec : ℝ) (h : d.mean_motion ≠ 0) :
    (updateSat deltaSec d).simPhase = some (tickPhase deltaSec d) := by
  rw [updateSat_of_ne deltaSec h]

/-- The latitude after a step on an object with nonzero mean
motion. -/
theorem updateSat_lat {d : Sat} (deltaSec : ℝ) (h : d.mean_motion ≠ 0) :
    (updateSat deltaSec d).lat = clampLat (d.inclination * Real.sin (tickPhase deltaSec d)) := by
  rw [updateSat_of_ne deltaSec h]

/-- The anomaly flag survives the animation step. -/
theorem updateSat_is_anomaly (deltaSec : ℝ) (d : Sat) :
    (updateSat deltaSec d).is_anomaly = d.is_anomaly := by
  by_cases h : d.mean_motion = 0
  · rw [updateSat_of_zero deltaSec h]
  · rw [updateSat_of_ne deltaSec h]

/-- The latitude clamp always lands in [-90, 90]. -/
theorem clampLat_mem (x : ℝ) : -90 ≤ clampLat x ∧ clampLat x ≤ 90 := by
  simp only [clampLat]
  split_ifs <;> constructor <;> linarith

/-- The two conditional wrap branches keep an in-domain longitude in
the closed interval [-180, 180] whenever the increment has magnitude
at most 360. -/
theorem wrapLng_mem (x s : ℝ) (h1 : -180 < x) (h2 : x ≤ 180) (hs : |s| ≤ 360) :
    -180 ≤ wrapLng (x + s) ∧ wrapLng (x + s) ≤ 180 := by
  have hs1 := abs_le.mp hs
  simp only [wrapLng]
  split_ifs <;> constructor <;> linarith [hs1.1, hs1.2]

/-- fetchData on a network error only writes the status. -/
theorem fetchData_netError (st : AppState) :
    fetchData st FetchOutcome.netError = { st with statusText := Status.connectionLost } := rfl

/-- fetchData on a non-ok response only writes the status. -/
theorem fetchData_notOk (st : AppState) (dat : ApiData) :
    fetchData st (FetchOutcome.response false dat) =
      { st with statusText := Status.connectionLost } := rfl

/-- fetchData on an ok response runs the successful tail. -/
theorem fetchData_ok (st : AppState) (dat : ApiData) :
    fetchData st (FetchOutcome.response true dat) = applyData st dat := rfl

/-- The collection after a successful refresh is the mapped feed. -/
theorem applyData_currentData (st : AppState) (dat : ApiData) :
    (applyData st dat).currentData = dat.satellites.map mapPoint := by
  simp only [applyData]
  split_ifs <;> rfl

/-- The rings layer after a successful refresh. -/
theorem applyData_ringsData (st : AppState) (dat : ApiData) :
    (applyData st dat).ringsData =
      (dat.satellites.filter (fun s => s.is_anomaly)).map
        (fun s => RingEntry.mk s.lat s.lon s.alt) := by
  simp only [applyData]
  split_ifs <;> rfl

/-- A refresh never touches the selection. -/
theorem applyData_selected (st : AppState) (dat : ApiData) :
    (applyData st dat).selectedSatelliteId = st.selectedSatelliteId := by
  simp only [applyData]
  split_ifs <;> rfl

/-- If the state is playing after a successful refresh, it was
playing before and the new collection is below the ceiling. -/
theorem applyData_isPlaying (st : AppState) (dat : ApiData) :
    (applyData st dat).isPlaying = true →
      st.isPlaying = true ∧ (dat.satellites.map mapPoint).length < 3000 := by
  simp only [applyData]
  split_ifs with h
  · intro hp
    exact absurd hp (by simp)
  · intro hp
    rw [not_and_or, not_le] at h
    refine ⟨hp, ?_⟩
    rcases h with h | h
    · exact absurd hp h
    · exact h

/-- A play/pause click never touches the collection. -/
theorem clickPlay_currentData (now : ℝ) (st : AppState) :
    (clickPlay now st).1.currentData = st.currentData := by
  simp only [clickPlay]
  split_ifs <;> rfl

/-- A play/pause click never touches the rings layer. -/
theorem clickPlay_ringsData (now : ℝ) (st : AppState) :
    (clickPlay now st).1.ringsData = st.ringsData := by
  simp only [clickPlay]
  split_ifs <;> rfl

/-- If the state is playing after a play/pause click, the collection
is below the ceiling. -/
theorem clickPlay_isPlaying (now : ℝ) (st : AppState) :
    (clickPlay now st).1.isPlaying = true → st.currentData.length < 3000 := by
  simp only [clickPlay]
  split_ifs with h1 h2
  · intro hp
    exact absurd hp (by simp)
  · intro _
    omega
  · intro hp
    exact absurd hp (by simp)

/-- A tick never changes whether the simulator is playing. -/
theorem animateOrbits_isPlaying (ts : ℝ) (st : AppState) :
    (animateOrbits ts st).isPlaying = st.isPlaying := by
  simp only [animateOrbits]
  split_ifs <;> rfl

/-- A tick never touches the rings layer. -/
theorem animateOrbits_ringsData (ts : ℝ) (st : AppState) :
    (animateOrbits ts st).ringsData = st.ringsData := by
  simp only [animateOrbits]
  split_ifs <;> rfl

/-- A tick maps the update over the collection, keeping its
length. -/
theorem animateOrbits_length (ts : ℝ) (st : AppState) :
    (animateOrbits ts st).currentData.length = st.currentData.length := by
  simp only [animateOrbits]
  split_ifs
  · rfl
  all_goals exact List.length_map _ _

/-- A tick keeps the number of anomalous objects of the
collection. -/
theorem animateOrbits_countAnom (ts : ℝ) (st : AppState) :
    ((animateOrbits ts st).currentData.filter (fun s => s.is_anomaly)).length =
      (st.currentData.filter (fun s => s.is_anomaly)).length := by
  simp only [animateOrbits]
  split_ifs
  · rfl
  all_goals
    show ((st.currentData.map _).filter _).length = _
    rw [← List.countP_eq_length_filter, ← List.countP_eq_length_filter, List.countP_map]
    exact List.countP_congr (fun s _ => by simp [updateSat_is_anomaly])

/-- A refresh never touches the selection, whatever its outcome. -/
theorem fetchData_selected (st : AppState) (o : FetchOutcome) :
    (fetchData st o).selectedSatelliteId = st.selectedSatelliteId := by
  cases o with
  | netError => rfl
  | response ok dat =>
      cases ok with
      | false => rfl
      | true => rw [fetchData_ok]; exact applyData_selected st dat

/-- C6: immediately after any successful refresh, every object of
the new collection has no transient phase (simPhase is absent), so
the next tick re-derives it from the fresh latitude. -/
theorem refresh_clears_sim_phase (st : AppState) (dat : ApiData) :
    ∀ s ∈ (fetchData st (FetchOutcome.response true dat)).currentData,
      s.simPhase = none := by
  intro s hs
  rw [fetchData_ok, applyData_currentData] at hs
  obtain ⟨a, _, rfl⟩ := List.mem_map.mp hs
  rfl

/-- Witness for C6 at the concrete one-satellite response dataA. -/
theorem refresh_clears_sim_phase_witness : (mapPoint apiSatA).simPhase = none :=
  refresh_clears_sim_phase initState dataA (mapPoint apiSatA)
    (by rw [fetchData_ok, applyData_currentData]
        exact List.mem_map_of_mem mapPoint (List.mem_cons_self apiSatA []))

/-- C7: when a refresh attempt fails (network error or non-ok
response), the collection, all render-layer inputs, the panel, the
selection and the play flag are exactly as before, and only the
status becomes the connection-lost message; fetchData is total, so no
exception escapes it. -/
theorem refresh_failure_preserves_state (st : AppState) (o : FetchOutcome)
    (h : o = FetchOutcome.netError ∨ ∃ dat, o = FetchOutcome.response false dat) :
    (fetchData st o).currentData = st.currentData ∧
    (fetchData st o).pointsLayer = st.pointsLayer ∧
    (fetchData st o).pathsLayer = st.pathsLayer ∧
    (fetchData st o).ringsData = st.ringsData ∧
    (fetchData st o).panel = st.panel ∧
    (fetchData st o).selectedSatelliteId = st.selectedSatelliteId ∧
    (fetchData st o).isPlaying = st.isPlaying ∧
    (fetchData st o).statusText = Status.connectionLost := by
  rcases h with rfl | ⟨dat, rfl⟩ <;>
    exact ⟨rfl, rfl, rfl, rfl, rfl, rfl, rfl, rfl⟩

/-- Witness for C7 at the initial state and a network error. -/
theorem refresh_failure_preserves_state_witness :
    (fetchData initState FetchOutcome.netError).currentData = initState.currentData ∧
    (fetchData initState FetchOutcome.netError).pointsLayer = initState.pointsLayer ∧
    (fetchData initState FetchOutcome.netError).pathsLayer = initState.pathsLayer ∧
    (fetchData initState FetchOutcome.netError).ringsData = initState.ringsData ∧
    (fetchData initState FetchOutcome.netError).panel = initState.panel ∧
    (fetchData initState FetchOutcome.netError).selectedSatelliteId =
      initState.selectedSatelliteId ∧
    (fetchData initState FetchOutcome.netError).isPlaying = initState.isPlaying ∧
    (fetchData initState FetchOutcome.netError).statusText = Status.connectionLost :=
  refresh_failure_preserves_state initState FetchOutcome.netError (Or.inl rfl)

/-- C10: a tick leaves an object with zero mean motion completely
unmodified, and on every object it only ever changes the latitude,
the longitude and the transient phase: all other fields are
untouched. -/
theorem tick_frame_effect (deltaSec : ℝ) (d : Sat) :
    (d.mean_motion = 0 → updateSat deltaSec d = d) ∧
    (updateSat deltaSec d).norad_id = d.norad_id ∧
    (updateSat deltaSec d).name = d.name ∧
    (updateSat deltaSec d).altitude = d.altitude ∧
    (updateSat deltaSec d).alt = d.alt ∧
    (updateSat deltaSec d).is_anomaly = d.is_anomaly ∧
    (updateSat deltaSec d).anomaly_score = d.anomaly_score ∧
    (updateSat deltaSec d).orbit_type = d.orbit_type ∧
    (updateSat deltaSec d).owner = d.owner ∧
    (updateSat deltaSec d).object_type = d.object_type ∧
    (updateSat deltaSec d).mean_motion = d.mean_motion ∧
    (updateSat deltaSec d).inclination = d.inclination := by
  refine ⟨updateSat_of_zero deltaSec, ?_⟩
  by_cases h : d.mean_motion = 0
  · rw [updateSat_of_zero deltaSec h]
    exact ⟨rfl, rfl, rfl, rfl, rfl, rfl, rfl, rfl, rfl, rfl, rfl⟩
  · rw [updateSat_of_ne deltaSec h]
    exact ⟨rfl, rfl, rfl, rfl, rfl, rfl, rfl, rfl, rfl, rfl, rfl⟩

/-- Witness for C10 at a concrete zero-mean-motion object. -/
theorem tick_frame_effect_witness : updateSat 0 satZero = satZero :=
  (tick_frame_effect 0 satZero).1 rfl

/-- C2: the simulator runs only below the capacity ceiling.  At
every reachable state, RUNNING implies the collection size is below
3000; a start request at or over the ceiling is rejected with the
capacity notice and the state stays STOPPED; a start below the
ceiling transitions to RUNNING; and a refresh landing while RUNNING
whose new collection is at or over the ceiling forces STOPPED. -/
theorem sim_capacity_state_machine :
    (∀ st, Reachable st → st.isPlaying = true → st.currentData.length < 3000) ∧
    (∀ (st : AppState) (now : ℝ), st.isPlaying = false →
      3000 ≤ st.currentData.length →
      (clickPlay now st).1.isPlaying = false ∧ (clickPlay now st).2 = true) ∧
    (∀ (st : AppState) (now : ℝ), st.isPlaying = false →
      st.currentData.length < 3000 → (clickPlay now st).1.isPlaying = true) ∧
    (∀ (st : AppState) (dat : ApiData), st.isPlaying = true →
      3000 ≤ dat.satellites.length →
      (fetchData st (FetchOutcome.response true dat)).isPlaying = false) := by
  refine ⟨?_, ?_, ?_, ?_⟩
  · intro st hr
    induction hr with
    | init => intro hp; exact absurd hp (by simp [initState])
    | step hr hst ih =>
        cases hst with
        | fetch o =>
            cases o with
            | netError => exact ih
            | response ok dat =>
                cases ok with
                | false => exact ih
                | true =>
                    rw [fetchData_ok]
                    intro hp
                    have h2 := (applyData_isPlaying _ dat hp).2
                    rw [applyData_currentData]
                    exact h2
        | play now =>
            intro hp
            rw [clickPlay_currentData]
            exact clickPlay_isPlaying now _ hp
        | tick ts =>
            intro hp
            rw [animateOrbits_length]
            exact ih ((animateOrbits_isPlaying ts _) ▸ hp)
        | click d => exact ih
        | closeWiki => exact ih
        | toggle => exact ih
  · intro st now h0 hcap
    simp only [clickPlay, h0, Bool.not_false, if_true]
    rw [if_pos hcap]
    exact ⟨rfl, rfl⟩
  · intro st now h0 hlt
    simp only [clickPlay, h0, Bool.not_false, if_true]
    rw [if_neg (not_le.mpr hlt)]
  · intro st dat hp hlen
    rw [fetchData_ok]
    simp only [applyData]
    rw [if_pos ⟨hp, by simpa [List.length_map] using hlen⟩]

/-- Witness for C2: a start click at the concrete 3000-object state
is rejected with the capacity notice. -/
theorem sim_capacity_state_machine_witness :
    (clickPlay 0 stBig).1.isPlaying = false ∧ (clickPlay 0 stBig).2 = true :=
  sim_capacity_state_machine.2.1 stBig 0 rfl
    (by rw [show stBig.currentData = List.replicate 3000 satZero from rfl,
          List.length_replicate])

/-- C8: at every reachable state the rings layer has exactly one
entry per anomalous object of the current collection, independent of
the simulator state and of the vectors toggle. -/
theorem rings_match_anomalies (st : AppState) (hr : Reachable st) :
    st.ringsData.length = (st.currentData.filter (fun s => s.is_anomaly)).length := by
  induction hr with
  | init => rfl
  | step hr hst ih =>
      cases hst with
      | fetch o =>
          cases o with
          | netError => exact ih
          | response ok dat =>
              cases ok with
              | false => exact ih
              | true =>
                  rw [fetchData_ok, applyData_currentData, applyData_ringsData,
                    List.length_map, ← List.countP_eq_length_filter,
                    ← List.countP_eq_length_filter, List.countP_map]
                  exact List.countP_congr (fun s _ => by simp [mapPoint])
      | play now => rw [clickPlay_currentData, clickPlay_ringsData]; exact ih
      | tick ts => rw [animateOrbits_ringsData, animateOrbits_countAnom]; exact ih
      | click d => exact ih
      | closeWiki => exact ih
      | toggle => exact ih

/-- Witness for C8 at the initial reachable state. -/
theorem rings_match_anomalies_witness :
    initState.ringsData.length =
      (initState.currentData.filter (fun s => s.is_anomaly)).length :=
  rings_match_anomalies initState Reachable.init

/-- C9: for every input list of anomalous objects, the side panel
lists at most 50 entries, in non-increasing anomaly-score order, and
the entries of any fixed score appear as an in-order sublist of the
equally scored entries of the input (stability of the sort, ties in
original order). -/
theorem panel_top50_sorted_stable (l : List Sat) (v : ℝ) :
    (panelTop l).length ≤ 50 ∧
    (panelTop l).Sorted panelRel ∧
    List.Sublist ((panelTop l).filter (fun s => decide (s.anomaly_score = v)))
      (l.filter (fun s => decide (s.anomaly_score = v))) := by
  refine ⟨List.length_take_le _ _, ?_, ?_⟩
  · exact (List.sorted_insertionSort panelRel l).sublist (List.take_sublist _ _)
  · set p : Sat → Bool := fun s => decide (s.anomaly_score = v) with hp
    have hpair : (l.filter p).Pairwise panelRel := by
      apply List.pairwise_of_forall_mem_list
      intro a ha b hb
      have ha2 : a.anomaly_score = v := of_decide_eq_true (List.mem_filter.mp ha).2
      have hb2 : b.anomaly_score = v := of_decide_eq_true (List.mem_filter.mp hb).2
      show b.anomaly_score ≤ a.anomaly_score
      rw [ha2, hb2]
    have hsub : List.Sublist (l.filter p) (List.insertionSort panelRel l) :=
      List.sublist_insertionSort hpair (List.filter_sublist l)
    have hsub2 : List.Sublist ((l.filter p).filter p)
        ((List.insertionSort panelRel l).filter p) :=
      hsub.filter p
    have hid : (l.filter p).filter p = l.filter p :=
      List.filter_eq_self.mpr (fun a ha => (List.mem_filter.mp ha).2)
    rw [hid] at hsub2
    have hperm : List.Perm ((List.insertionSort panelRel l).filter p) (l.filter p) :=
      (List.perm_insertionSort panelRel l).filter p
    have heq : (List.insertionSort panelRel l).filter p = l.filter p :=
      (hsub2.eq_of_length hperm.length_eq.symm).symm
    have htake : List.Sublist ((panelTop l).filter p)
        ((List.insertionSort panelRel l).filter p) :=
      List.Sublist.filter p (List.take_sublist _ _)
    rw [heq] at htake
    exact htake


/-- C1 counterexample: the claimed longitude domain (-180, 180] is
violated.  From the in-domain longitude -179.99 with mean motion
13/25, a half-second tick shifts the longitude by exactly -0.01 to
-180, which neither wrap branch of the source moves, so the open
lower bound fails. -/
theorem tick_lng_can_reach_neg180 : ¬ LngLatInvClaim := by
  intro hcl
  have hne : satCexLng.mean_motion ≠ 0 := by
    show (13 : ℝ)/25 ≠ 0
    norm_num
  have h := hcl (1/2) satCexLng (by norm_num)
    (by show (-90 : ℝ) ≤ 0; norm_num) (by show (0 : ℝ) ≤ 90; norm_num)
    (by show (-180 : ℝ) < -17999/100; norm_num)
    (by show (-17999 : ℝ)/100 ≤ 180; norm_num)
  have hlng : (updateSat (1/2) satCexLng).lng = -180 := by
    rw [updateSat_lng (1/2) hne]
    show wrapLng ((-17999 : ℝ)/100 + lngStep (1/2) (13/25)) = -180
    rw [show (-17999 : ℝ)/100 + lngStep (1/2) (13/25) = -180 by
      simp only [lngStep, ORBIT_SPEED_FACTOR]; norm_num]
    simp only [wrapLng]
    norm_num
  have h3 := h.2.2.1
  rw [hlng] at h3
  exact lt_irrefl _ h3

/-- C1 as amended: after a tick the latitude always lies in
[-90, 90]; the longitude of an in-domain object stays in the CLOSED
interval [-180, 180] (the endpoint -180 is attainable, so the open
bound of the claim fails) provided the per-tick longitude increment
has magnitude at most 360 (with an unbounded mean motion the single
conditional wrap of the source cannot bound the longitude at all). -/
theorem tick_keeps_lat_lng_in_closed_domain (deltaSec : ℝ) (d : Sat)
    (hdelta : 0 ≤ deltaSec)
    (hlat1 : -90 ≤ d.lat) (hlat2 : d.lat ≤ 90)
    (hlng1 : -180 < d.lng) (hlng2 : d.lng ≤ 180)
    (hstep : |lngStep deltaSec d.mean_motion| ≤ 360) :
    -90 ≤ (updateSat deltaSec d).lat ∧ (updateSat deltaSec d).lat ≤ 90 ∧
    -180 ≤ (updateSat deltaSec d).lng ∧ (updateSat deltaSec d).lng ≤ 180 := by
  by_cases h : d.mean_motion = 0
  · rw [updateSat_of_zero deltaSec h]
    exact ⟨hlat1, hlat2, le_of_lt hlng1, hlng2⟩
  · rw [updateSat_lat deltaSec h, updateSat_lng deltaSec h]
    have hw := wrapLng_mem d.lng (lngStep deltaSec d.mean_motion) hlng1 hlng2 hstep
    have hc := clampLat_mem (d.inclination * Real.sin (tickPhase deltaSec d))
    exact ⟨hc.1, hc.2, hw.1, hw.2⟩

/-- Witness for the amended C1 at a concrete in-domain object with
zero mean motion and a zero-length tick. -/
theorem tick_keeps_lat_lng_in_closed_domain_witness :
    -90 ≤ (updateSat 0 satZero).lat ∧ (updateSat 0 satZero).lat ≤ 90 ∧
    -180 ≤ (updateSat 0 satZero).lng ∧ (updateSat 0 satZero).lng ≤ 180 :=
  tick_keeps_lat_lng_in_closed_domain 0 satZero le_rfl
    (by show (-90 : ℝ) ≤ 0; norm_num) (by show (0 : ℝ) ≤ 90; norm_num)
    (by show (-180 : ℝ) < 0; norm_num) (by show (0 : ℝ) ≤ 180; norm_num)
    (by show |lngStep 0 0| ≤ 360
        simp only [lngStep, ORBIT_SPEED_FACTOR]
        norm_num)


/-- C3 counterexample: refresh does not revalidate the selection.
After loading the one-satellite response dataA, clicking satellite 5,
and a later refresh that loads the empty response, the reachable
state st3 still selects id 5 while the collection is empty. -/
theorem selection_stale_after_refresh : ¬ SelectionValidClaim := by
  intro hcl
  have hr3 : Reachable st3 :=
    Reachable.step
      (Reachable.step
        (Reachable.step Reachable.init
          (Step.fetch initState (FetchOutcome.response true dataA)))
        (Step.click st1 (mapPoint apiSatA)))
      (Step.fetch st2 (FetchOutcome.response true dataEmpty))
  have hsel : st3.selectedSatelliteId = some 5 := by
    show (fetchData st2 (FetchOutcome.response true dataEmpty)).selectedSatelliteId = some 5
    rw [fetchData_selected]
    rfl
  have hcd : st3.currentData = [] := by
    show (fetchData st2 (FetchOutcome.response true dataEmpty)).currentData = []
    rw [fetchData_ok, applyData_currentData]
    rfl
  have hmem := hcl st3 hr3 5 hsel
  rw [hcd] at hmem
  simp at hmem

/-- C3 as amended: a selection made by clicking an object of the
current collection references an id present in that snapshot at the
moment of selection, and a refresh leaves the selection untouched
rather than revalidating it — so after a refresh the selected id may
no longer belong to the new collection. -/
theorem selection_valid_at_click (st : AppState) (d : Sat)
    (h : d ∈ st.currentData) :
    (handleSatelliteClick d st).selectedSatelliteId = some d.norad_id ∧
    d.norad_id ∈ (handleSatelliteClick d st).currentData.map (fun s => s.norad_id) ∧
    (∀ o, (fetchData (handleSatelliteClick d st) o).selectedSatelliteId =
      some d.norad_id) := by
  refine ⟨rfl, ?_, ?_⟩
  · show d.norad_id ∈ st.currentData.map (fun s => s.norad_id)
    exact List.mem_map_of_mem _ h
  · intro o
    rw [fetchData_selected]
    rfl

/-- Witness for the amended C3 at a concrete one-object state. -/
theorem selection_valid_at_click_witness :
    (handleSatelliteClick satZero stOne).selectedSatelliteId = some satZero.norad_id ∧
    satZero.norad_id ∈
      (handleSatelliteClick satZero stOne).currentData.map (fun s => s.norad_id) ∧
    (∀ o, (fetchData (handleSatelliteClick satZero stOne) o).selectedSatelliteId =
      some satZero.norad_id) :=
  selection_valid_at_click stOne satZero (List.mem_cons_self satZero [])


/-- C4 counterexample: the phase produced by a tick can be negative,
violating the claimed range [0, 2 pi).  With latitude -90 and
inclination 90 the initialisation asin(-1) gives -pi/2, and the small
advance of a half-second tick at mean motion 1 leaves the phase
negative (the source bounds the phase only from above). -/
theorem phase_can_be_negative : ¬ PhaseRangeClaim := by
  intro hcl
  have hne : satCexPhase.mean_motion ≠ 0 := by
    show (1 : ℝ) ≠ 0
    norm_num
  have hpos : (0 : ℝ) < satCexPhase.mean_motion := by
    show (0 : ℝ) < 1
    norm_num
  have hpi := Real.pi_pos
  have hinit : initPhase satCexPhase.lat satCexPhase.inclination = -(Real.pi/2) := by
    show initPhase (-90 : ℝ) 90 = -(Real.pi/2)
    simp only [initPhase]
    rw [if_pos (by norm_num : (90 : ℝ) > 0)]
    rw [show max (-1 : ℝ) (min 1 ((-90 : ℝ)/90)) = -1 by norm_num [min_def, max_def]]
    exact Real.arcsin_neg_one
  have hstepv : phaseStep (1/2) satCexPhase.mean_motion = Real.pi * (1/8640) := by
    show phaseStep (1/2) 1 = Real.pi * (1/8640)
    simp only [phaseStep, ORBIT_SPEED_FACTOR]
    ring
  have htp : tickPhase (1/2) satCexPhase = -(Real.pi/2) + Real.pi * (1/8640) := by
    simp only [tickPhase]
    rw [show satCexPhase.simPhase = none from rfl, Option.getD_none, hinit, hstepv]
    simp only [wrapPhase]
    rw [if_neg (not_lt.mpr (by linarith))]
  have h := hcl (1/2) satCexPhase (by norm_num) hpos
    (tickPhase (1/2) satCexPhase) (updateSat_simPhase (1/2) hne)
  rw [htp] at h
  have h0 := h.1
  linarith

/-- C4 as amended: on a tick, an object with positive mean motion
has its phase advanced by exactly
(meanMotion * 2 pi / 86400) * deltaSeconds * SPEED_FACTOR on top of
the previous phase (or of the asin initialisation), then bounded by a
single conditional subtraction of 2 pi; the resulting phase lies in
[-pi/2, 2 pi] — not [0, 2 pi) — whenever the previous phase did and
the increment is at most 2 pi. -/
theorem phase_advance_bounded (deltaSec : ℝ) (d : Sat)
    (hdelta : 0 ≤ deltaSec) (hmm : 0 < d.mean_motion)
    (hprev : ∀ q, d.simPhase = some q → -(Real.pi/2) ≤ q ∧ q ≤ 2*Real.pi)
    (hstep : phaseStep deltaSec d.mean_motion ≤ 2*Real.pi) :
    (updateSat deltaSec d).simPhase = some (tickPhase deltaSec d) ∧
    -(Real.pi/2) ≤ tickPhase deltaSec d ∧ tickPhase deltaSec d ≤ 2*Real.pi := by
  have hne := ne_of_gt hmm
  have hpi := Real.pi_pos
  have hstep0 : 0 ≤ phaseStep deltaSec d.mean_motion := by
    simp only [phaseStep, ORBIT_SPEED_FACTOR]
    have h1 : 0 ≤ d.mean_motion * 2 * Real.pi :=
      mul_nonneg (mul_nonneg hmm.le (by norm_num)) hpi.le
    have h2 : 0 ≤ d.mean_motion * 2 * Real.pi / 86400 :=
      div_nonneg h1 (by norm_num)
    exact mul_nonneg (mul_nonneg h2 hdelta) (by norm_num)
  have hbase : -(Real.pi/2) ≤ d.simPhase.getD (initPhase d.lat d.inclination) ∧
      d.simPhase.getD (initPhase d.lat d.inclination) ≤ 2*Real.pi := by
    cases hsp : d.simPhase with
    | some q =>
        simp only [Option.getD_some]
        exact hprev q hsp
    | none =>
        simp only [Option.getD_none]
        constructor
        · simp only [initPhase]
          split_ifs
          · exact Real.neg_pi_div_two_le_arcsin _
          · linarith
        · simp only [initPhase]
          split_ifs
          · have := Real.arcsin_le_pi_div_two (max (-1) (min 1 (d.lat / d.inclination)))
            linarith
          · linarith
  refine ⟨updateSat_simPhase deltaSec hne, ?_, ?_⟩
  · simp only [tickPhase, wrapPhase]
    split_ifs with hgt
    · linarith [hbase.1, hbase.2]
    · linarith [hbase.1]
  · simp only [tickPhase, wrapPhase]
    split_ifs with hgt
    · linarith [hbase.1, hbase.2]
    · linarith [hbase.2]

/-- Witness for the amended C4 at a concrete object with mean motion
1, no recorded phase and a zero-length tick. -/
theorem phase_advance_bounded_witness :
    (updateSat 0 satPhaseW).simPhase = some (tickPhase 0 satPhaseW) ∧
    -(Real.pi/2) ≤ tickPhase 0 satPhaseW ∧ tickPhase 0 satPhaseW ≤ 2*Real.pi :=
  phase_advance_bounded 0 satPhaseW le_rfl
    (by show (0 : ℝ) < 1; norm_num)
    (fun q hq => absurd hq (by simp [satPhaseW]))
    (by rw [show phaseStep 0 satPhaseW.mean_motion = 0 by simp [phaseStep]]
        linarith [Real.pi_pos])


/-- C5 counterexample: on the first tick after a successful start
the nominal 0.016 is NOT substituted.  The start click records the
click time in lastFrameTime, so the first tick uses the real elapsed
time: starting at time 0 and ticking at time 100 ms uses 0.1
seconds, not 0.016. -/
theorem first_tick_delta_not_nominal : ¬ FirstTickNominalClaim := by
  intro hcl
  have hplay : (clickPlay 0 initState).1.isPlaying = true := rfl
  have h := hcl initState 0 100 rfl hplay
  have hlft : (clickPlay 0 initState).1.lastFrameTime = some 0 := rfl
  rw [hlft] at h
  have hval : deltaSecOf (some 0) 100 = (1 : ℝ)/10 := by
    simp only [deltaSecOf, Option.getD_some]
    rw [if_neg (not_lt.mpr (by norm_num))]
    norm_num
  rw [hval] at h
  norm_num at h

/-- C5 as amended: the elapsed time of a tick is
(timestamp - lastFrameTime) / 1000, where a missing lastFrameTime is
first set to the timestamp itself (elapsed 0); the nominal 0.016 is
substituted exactly when this elapsed value exceeds 0.5 seconds.  On
the first tick after a successful start, lastFrameTime is the time
recorded at the start click, so 0.016 is used only if more than half
a second passed since the click. -/
theorem delta_seconds_rule (lft ts : ℝ) (st : AppState) (now : ℝ) :
    (0.5 < (ts - lft) / 1000 → deltaSecOf (some lft) ts = 0.016) ∧
    (¬ 0.5 < (ts - lft) / 1000 → deltaSecOf (some lft) ts = (ts - lft) / 1000) ∧
    deltaSecOf none ts = 0 ∧
    (st.isPlaying = false → st.currentData.length < 3000 →
      (clickPlay now st).1.lastFrameTime = some now) := by
  refine ⟨?_, ?_, ?_, ?_⟩
  · intro h
    simp only [deltaSecOf, Option.getD_some]
    rw [if_pos h]
  · intro h
    simp only [deltaSecOf, Option.getD_some]
    rw [if_neg h]
  · simp only [deltaSecOf, Option.getD_none]
    rw [if_neg (not_lt.mpr (by norm_num)), sub_self, zero_div]
  · intro h0 hlt
    simp only [clickPlay, h0, Bool.not_false, if_true]
    rw [if_neg (not_le.mpr hlt)]

/-- Witness for the amended C5: a two-second gap is clamped to the
nominal elapsed time. -/
theorem delta_seconds_rule_witness : deltaSecOf (some 0) 2000 = 0.016 :=
  (delta_seconds_rule 0 2000 initState 0).1 (by norm_num)


/-- Witness for C9 at the empty input list. -/
theorem panel_top50_sorted_stable_witness :
    (panelTop []).length ≤ 50 ∧
    (panelTop []).Sorted panelRel ∧
    List.Sublist ((panelTop []).filter (fun s => decide (s.anomaly_score = 0)))
      (List.filter (fun s => decide (s.anomaly_score = 0)) []) :=
  panel_top50_sorted_stable [] 0


end OrbitIntel
